import Mathlib

/-!
Verification of the peak-finance core: a shallow embedding in Lean 4 of the
intent classifier, compliance gate, AI provider fallback, context builder,
insight generator and dashboard aggregator, with theorems settling the
specification's testable properties.

Python floats are idealised as rationals (`ℚ`); Python strings are Lean
`String`s; the external AI backend call and the PII redaction transform are
abstracted as explicit parameters.  Functions named after the source keep the
source structure; functions whose source module is not part of the snapshot
(the calculator library) carry a `Modelled from the spec:` doc comment.
-/

namespace PeakFinance

/-! ## String helpers: Python `word in message` substring containment -/

/-- `needle` occurs at the start of `hay` (character lists). -/
def startsWithChars : List Char → List Char → Bool
  | [], _ => true
  | _ :: _, [] => false
  | a :: as, b :: bs => a == b && startsWithChars as bs

/-- `needle` occurs somewhere inside `hay` (character lists). -/
def containsChars (needle : List Char) : List Char → Bool
  | [] => startsWithChars needle []
  | hay@(_ :: rest) => startsWithChars needle hay || containsChars needle rest

/-- Python `needle in hay` on strings. -/
def strContains (hay needle : String) : Bool :=
  containsChars needle.toList hay.toList

/-- Python `message.lower()`, modelled characterwise with `Char.toLower`. -/
def lowerString (s : String) : String :=
  String.mk (s.data.map Char.toLower)

/-- Python `any(word in m for word in words)`. -/
def containsAnyWord (m : String) (words : List String) : Bool :=
  words.any (fun w => strContains m w)

/-! ## Intent classification (src/app/services/ai.py) -/

/-- AI message intent categories (`IntentCategory` in src/app/services/ai.py). -/
inductive IntentCategory where
  | GENERAL_ADVICE
  | BUDGET_HELP
  | LOAN_QUESTION
  | GOAL_PLANNING
  | SPENDING_QUERY
  | LOAN_APPROVAL_REQUEST
  | EKYC_REQUEST
  | CIB_ACCESS_REQUEST
  | UNKNOWN
  deriving DecidableEq, Repr

/-- The string value of each intent category, as in the Python `str`-enum. -/
def IntentCategory.value : IntentCategory → String
  | .GENERAL_ADVICE => "general_advice"
  | .BUDGET_HELP => "budget_help"
  | .LOAN_QUESTION => "loan_question"
  | .GOAL_PLANNING => "goal_planning"
  | .SPENDING_QUERY => "spending_query"
  | .LOAN_APPROVAL_REQUEST => "loan_approval_request"
  | .EKYC_REQUEST => "ekyc_request"
  | .CIB_ACCESS_REQUEST => "cib_access_request"
  | .UNKNOWN => "unknown"

/-- Blocked intents (regulated features), `BLOCKED_INTENTS` in the source. -/
def BLOCKED_INTENTS : List IntentCategory :=
  [.LOAN_APPROVAL_REQUEST, .EKYC_REQUEST, .CIB_ACCESS_REQUEST]

/-- Keyword group for loan-approval requests. -/
def loanApprovalWords : List String := ["approve", "approval", "grant loan", "give me loan"]

/-- Keyword group for e-KYC requests. -/
def ekycWords : List String := ["ekyc", "e-kyc", "kyc", "verify identity", "id verification"]

/-- Keyword group for credit-bureau access requests. -/
def cibWords : List String := ["cib", "credit bureau", "credit report", "credit score"]

/-- Keyword group for budget help. -/
def budgetWords : List String := ["budget", "expense", "spend"]

/-- Keyword group for loan questions. -/
def loanWords : List String := ["loan", "emi", "debt", "borrow"]

/-- Keyword group for goal planning. -/
def goalWords : List String := ["goal", "save", "saving"]

/-- Keyword group for spending queries. -/
def spendingWords : List String := ["safe to spend", "can i spend", "afford"]

/-- Keyword group for general advice. -/
def adviceWords : List String := ["advice", "help", "suggest"]

/-- `classify_intent` from src/app/services/ai.py: lower-case the message and
test the ordered keyword groups, blocked groups first, `UNKNOWN` fallback. -/
def classify_intent (message : String) : IntentCategory :=
  let m := lowerString message
  if containsAnyWord m loanApprovalWords then .LOAN_APPROVAL_REQUEST
  else if containsAnyWord m ekycWords then .EKYC_REQUEST
  else if containsAnyWord m cibWords then .CIB_ACCESS_REQUEST
  else if containsAnyWord m budgetWords then .BUDGET_HELP
  else if containsAnyWord m loanWords then .LOAN_QUESTION
  else if containsAnyWord m goalWords then .GOAL_PLANNING
  else if containsAnyWord m spendingWords then .SPENDING_QUERY
  else if containsAnyWord m adviceWords then .GENERAL_ADVICE
  else .UNKNOWN

/-- True when the lowered message matches none of the nine keyword groups. -/
def noKeywordGroupMatches (message : String) : Bool :=
  let m := lowerString message
  !(containsAnyWord m loanApprovalWords) && !(containsAnyWord m ekycWords) &&
  !(containsAnyWord m cibWords) && !(containsAnyWord m budgetWords) &&
  !(containsAnyWord m loanWords) && !(containsAnyWord m goalWords) &&
  !(containsAnyWord m spendingWords) && !(containsAnyWord m adviceWords)

/-- `is_intent_allowed` from src/app/services/ai.py: blocked intents are never
allowed in educational mode; everything else is always allowed. -/
def is_intent_allowed (intent : IntentCategory) (is_regulated : Bool) : Bool :=
  if intent ∈ BLOCKED_INTENTS ∧ ¬ (is_regulated = true) then false else true

/-! ## Numeric helpers: Python `round`, `int`, and f-string number formatting -/

/-- Round a rational to the nearest integer, ties to even (Python `round`). -/
def halfEvenRound (q : ℚ) : ℤ :=
  let f := Int.floor q
  let frac := q - f
  if frac < 1/2 then f
  else if 1/2 < frac then f + 1
  else if f % 2 = 0 then f else f + 1

/-- Python `round(q, ndigits)`. -/
def pyRound (q : ℚ) (ndigits : ℕ) : ℚ :=
  (halfEvenRound (q * 10 ^ ndigits) : ℚ) / 10 ^ ndigits

/-- Python `int(q)`: truncation toward zero. -/
def pyTrunc (q : ℚ) : ℤ :=
  if q < 0 then -Int.floor (-q) else Int.floor q

/-- The minus-sign string. -/
def minusS : String := "-"

/-- The empty string. -/
def emptyS : String := ""

/-- The decimal-point string. -/
def dotS : String := "."

/-- Two-decimal digits with a leading zero when needed. -/
def twoDigits (n : ℕ) : String :=
  let s := Nat.repr n
  let pad : String := "0"
  if n < 10 then pad ++ s else s

/-- Split a reversed digit list into chunks of three, least significant first. -/
def chunk3 : List Char → List (List Char)
  | a :: b :: c :: rest@(_ :: _) => [a, b, c] :: chunk3 rest
  | xs => [xs]

/-- Insert thousands separators into a digit string (Python `,` format flag). -/
def commaGroup (s : String) : String :=
  String.mk ((List.intercalate [','] (chunk3 s.toList.reverse)).reverse)

/-- Python f-string `{q:,.2f}`: two decimals with thousands separators. -/
def fmtMoney (q : ℚ) : String :=
  let cents := halfEvenRound (q * 100)
  let n := cents.natAbs
  let sgn := if cents < 0 then minusS else emptyS
  sgn ++ commaGroup (Nat.repr (n / 100)) ++ dotS ++ twoDigits (n % 100)

/-- Python f-string `{q:.1f}`: one decimal, no separators. -/
def fmtFixed1 (q : ℚ) : String :=
  let t := halfEvenRound (q * 10)
  let n := t.natAbs
  let sgn := if t < 0 then minusS else emptyS
  sgn ++ Nat.repr (n / 10) ++ dotS ++ Nat.repr (n % 10)

/-- Python f-string `{q:.0f}`: rounded to a whole number. -/
def fmtFixed0 (q : ℚ) : String :=
  let t := halfEvenRound q
  (if t < 0 then minusS else emptyS) ++ Nat.repr t.natAbs

/-! ## Financial formula library (app/services/calculators.py)

The calculator module itself is not part of the source snapshot (only its
callers and tests are), so these definitions are modelled from the spec. -/

/-- Calculator failure, the spec's `InvalidInputError`. -/
inductive CalcError where
  | invalidInput
  deriving DecidableEq, Repr

/-- Monthly rate from an annual percentage: `r = annual_rate_pct / 12 / 100`. -/
def monthlyRate (annual_rate_pct : ℚ) : ℚ :=
  annual_rate_pct / 12 / 100

/-- Modelled from the spec: the EMI closed-form value
`P*r*(1+r)^n / ((1+r)^n - 1)` with the zero-rate special case `P/n`
(`emi` in app/services/calculators.py, guards aside). -/
def emiVal (principal annual_rate_pct : ℚ) (term_months : ℕ) : ℚ :=
  let r := monthlyRate annual_rate_pct
  if r = 0 then principal / term_months
  else principal * r * (1 + r) ^ term_months / ((1 + r) ^ term_months - 1)

/-- Modelled from the spec: `emi` from app/services/calculators.py, failing
with `InvalidInputError` when `term_months < 1` or `principal < 0`. -/
def emi (principal annual_rate_pct : ℚ) (term_months : ℕ) : Except CalcError ℚ :=
  if term_months < 1 ∨ principal < 0 then .error .invalidInput
  else .ok (emiVal principal annual_rate_pct term_months)

/-- Modelled from the spec: `principal_from_emi` from
app/services/calculators.py, the algebraic inverse of the EMI formula with the
same zero-rate special case (`principal = emi_amount * term_months`). -/
def principal_from_emi (emi_amount annual_rate_pct : ℚ) (term_months : ℕ) : ℚ :=
  let r := monthlyRate annual_rate_pct
  if r = 0 then emi_amount * term_months
  else emi_amount * ((1 + r) ^ term_months - 1) / (r * (1 + r) ^ term_months)

/-- Modelled from the spec: `dti` from app/services/calculators.py,
`debt / income`, returning 0 when income is non-positive. -/
def dti (monthly_debt_payment monthly_income : ℚ) : ℚ :=
  if monthly_income ≤ 0 then 0 else monthly_debt_payment / monthly_income

/-- Modelled from the spec: `fun_budget` from app/services/calculators.py,
`income * ratio` with no clamping. -/
def fun_budget (income ratio : ℚ) : ℚ :=
  income * ratio

/-! ## Record types consumed by the core (src/app/models.py) -/

/-- The fields of `User` that the core reads. -/
structure User where
  monthly_net_income : ℚ
  risk_tolerance : Option String
  deriving DecidableEq, Repr

/-- The fields of `Expense` that the core reads. -/
structure Expense where
  name : String
  amount : ℚ
  deriving DecidableEq, Repr

/-- The fields of `DebtAccount` that the core reads. -/
structure DebtAccount where
  name : String
  principal : ℚ
  annual_rate_pct : ℚ
  term_months : ℕ
  current_emi : ℚ
  deriving DecidableEq, Repr

/-- The fields of `Goal` that the core reads. -/
structure Goal where
  name : String
  target_amount : ℚ
  saved_amount : ℚ
  priority : ℤ
  deriving DecidableEq, Repr

/-- The fields of `AIRule` that the core reads. -/
structure AIRule where
  fun_ratio : ℚ
  velocity_threshold_k : ℚ
  deriving DecidableEq, Repr

/-- Sum of expense amounts, Python `sum(e.amount for e in expenses)`. -/
def totalExpenseAmount (expenses : List Expense) : ℚ :=
  (expenses.map Expense.amount).sum

/-- Sum of current EMIs, Python `sum(d.current_emi for d in debts)`. -/
def totalDebtEmi (debts : List DebtAccount) : ℚ :=
  (debts.map DebtAccount.current_emi).sum

/-- Sum of debt principals, Python `sum(d.principal for d in debts)`. -/
def totalPrincipal (debts : List DebtAccount) : ℚ :=
  (debts.map DebtAccount.principal).sum

/-- Sum of goal targets, Python `sum(g.target_amount for g in goals)`. -/
def totalGoalTarget (goals : List Goal) : ℚ :=
  (goals.map Goal.target_amount).sum

/-- Sum of goal savings, Python `sum(g.saved_amount for g in goals)`. -/
def totalGoalSaved (goals : List Goal) : ℚ :=
  (goals.map Goal.saved_amount).sum

/-! ## Pydantic response models (src/app/schemas.py)

The response classes are pydantic v2 `BaseModel`s: constructing one from
keyword arguments raises `ValidationError` when a required (default-less)
field is missing or of the wrong type, while extra keyword arguments are
silently ignored.  Constructor calls are modelled as a typed lookup of each
required field in the keyword-argument list. -/

/-- A pydantic construction failure. -/
inductive PydanticError where
  | validationError
  deriving DecidableEq, Repr

/-- A Python value passed as a keyword argument to a pydantic constructor. -/
inductive PyValue where
  | num (q : ℚ)
  | str (s : String)
  | boolean (b : Bool)
  | optInt (o : Option ℤ)
  | dict (d : List (String × String))
  deriving DecidableEq, Repr

/-- Look a keyword argument up by name. -/
def lookupVal : List (String × PyValue) → String → Option PyValue
  | [], _ => none
  | (k, v) :: rest, f => if k = f then some v else lookupVal rest f

/-- A required float field: present and numeric, else validation fails. -/
def getNum (kw : List (String × PyValue)) (f : String) : Option ℚ :=
  match lookupVal kw f with
  | some (.num q) => some q
  | _ => none

/-- A required str field. -/
def getStr (kw : List (String × PyValue)) (f : String) : Option String :=
  match lookupVal kw f with
  | some (.str s) => some s
  | _ => none

/-- A required bool field. -/
def getBool (kw : List (String × PyValue)) (f : String) : Option Bool :=
  match lookupVal kw f with
  | some (.boolean b) => some b
  | _ => none

/-- A required dict field. -/
def getDict (kw : List (String × PyValue)) (f : String) : Option (List (String × String)) :=
  match lookupVal kw f with
  | some (.dict d) => some d
  | _ => none

/-- `schemas.AIInsight` (src/app/schemas.py lines 217-222): the AI response
model with required fields `answer`, `intent`, `is_blocked`, `meta`. -/
structure AIInsight where
  answer : String
  intent : String
  is_blocked : Bool
  meta : List (String × String)
  deriving DecidableEq, Repr

/-- `schemas.DashboardSummary` (src/app/schemas.py lines 203-213): the
dashboard response model; all nine float fields are required, and there is no
`surplus`, `goal_progress_pct` or `debt_payoff_eta_months` field. -/
structure DashboardSummary where
  total_income : ℚ
  total_fixed_expenses : ℚ
  total_variable_expenses : ℚ
  total_debt_emi : ℚ
  total_savings_needed : ℚ
  remaining_balance : ℚ
  dti : ℚ
  safe_to_spend : ℚ
  fun_budget : ℚ
  deriving DecidableEq, Repr

/-- The pydantic constructor `DashboardSummary(**kw)`: each required field is
looked up in the keyword arguments; any missing one raises. -/
def buildDashboardSummary (kw : List (String × PyValue)) :
    Except PydanticError DashboardSummary :=
  match getNum kw "total_income", getNum kw "total_fixed_expenses",
      getNum kw "total_variable_expenses", getNum kw "total_debt_emi",
      getNum kw "total_savings_needed", getNum kw "remaining_balance",
      getNum kw "dti", getNum kw "safe_to_spend", getNum kw "fun_budget" with
  | some a1, some a2, some a3, some a4, some a5, some a6, some a7, some a8, some a9 =>
      .ok { total_income := a1, total_fixed_expenses := a2, total_variable_expenses := a3,
            total_debt_emi := a4, total_savings_needed := a5, remaining_balance := a6,
            dti := a7, safe_to_spend := a8, fun_budget := a9 }
  | _, _, _, _, _, _, _, _, _ => .error .validationError

/-! ## Context builder (`build_user_context` in src/app/services/ai.py) -/

/-- `build_user_context`: aggregate the records into the natural-language
grounding summary.  The global `settings.DEFAULT_FUN_RATIO` is threaded as the
explicit `default_fun_ratio` parameter; the string is the Python triple-quoted
f-string after the final `.strip()`. -/
def build_user_context (user : User) (expenses : List Expense) (debts : List DebtAccount)
    (goals : List Goal) (ai_rules : Option AIRule) (default_fun_ratio : ℚ) : String :=
  let total_expenses := totalExpenseAmount expenses
  let total_debt_emi := totalDebtEmi debts
  let total_goal_targets := totalGoalTarget goals
  let total_goal_saved := totalGoalSaved goals
  let fun_ratio :=
    match ai_rules with
    | some rules => rules.fun_ratio
    | none => default_fun_ratio
  let fun_budget_amt := fun_budget user.monthly_net_income fun_ratio
  let risk :=
    match user.risk_tolerance with
    | some r => r
    | none => "Not set"
  "User Financial Summary:\n- Monthly Income: ৳" ++ fmtMoney user.monthly_net_income ++
  "\n- Total Monthly Expenses: ৳" ++ fmtMoney total_expenses ++
  "\n- Total Monthly Debt Payments (EMI): ৳" ++ fmtMoney total_debt_emi ++
  "\n- Surplus: ৳" ++ fmtMoney (user.monthly_net_income - total_expenses - total_debt_emi) ++
  "\n- Fun Budget Allocation: ৳" ++ fmtMoney fun_budget_amt ++
  " (" ++ fmtFixed0 (fun_ratio * 100) ++ "% of income)" ++
  "\n- Goals: " ++ Nat.repr goals.length ++ " active (Target: ৳" ++
  fmtMoney total_goal_targets ++ ", Saved: ৳" ++ fmtMoney total_goal_saved ++ ")" ++
  "\n- Risk Tolerance: " ++ risk

/-! ## Insight generator (`generate_insights` in src/app/services/ai.py)

`generate_insights` instantiates the imported `schemas.AIInsight` with the
keyword arguments `type`, `title`, `message`, `severity` at each of its four
construction sites, so each site is modelled as the keyword-argument record it
passes, followed by the pydantic construction of `AIInsight` from it. -/

/-- The keyword arguments one `AIInsight(...)` construction site of
`generate_insights` passes (fields `type`, `title`, `message`, `severity`). -/
structure InsightArgs where
  type : String
  title : String
  message : String
  severity : String
  deriving DecidableEq, Repr

/-- The keyword-argument list of one `AIInsight(...)` call in
`generate_insights`. -/
def aiInsightKwargs (a : InsightArgs) : List (String × PyValue) :=
  [("type", .str a.type), ("title", .str a.title), ("message", .str a.message),
   ("severity", .str a.severity)]

/-- The pydantic constructor `AIInsight(**kw)` applied to one construction
site's keyword arguments: `schemas.AIInsight` requires `answer`, `intent`,
`is_blocked` and `meta`. -/
def buildAIInsight (a : InsightArgs) : Except PydanticError AIInsight :=
  match getStr (aiInsightKwargs a) "answer", getStr (aiInsightKwargs a) "intent",
      getBool (aiInsightKwargs a) "is_blocked", getDict (aiInsightKwargs a) "meta" with
  | some ans, some it, some blk, some m =>
      .ok { answer := ans, intent := it, is_blocked := blk, meta := m }
  | _, _, _, _ => .error .validationError

/-- Construct every appended insight in order; the first failing pydantic
construction raises, as in the source's sequential `insights.append(...)`. -/
def buildAll : List InsightArgs → Except PydanticError (List AIInsight)
  | [] => .ok []
  | a :: rest =>
    match buildAIInsight a with
    | .error e => .error e
    | .ok v =>
      match buildAll rest with
      | .error e => .error e
      | .ok vs => .ok (v :: vs)

/-- Insight 1 of `generate_insights`: surplus/deficit cash-flow sign. -/
def cashFlowInsights (surplus : ℚ) : List InsightArgs :=
  if surplus < 0 then
    [{ type := "budget", title := "⚠️ Budget Deficit",
       message := "You\x27re spending ৳" ++ fmtMoney (abs surplus) ++
         " more than you earn monthly. Consider reducing variable expenses.",
       severity := "critical" }]
  else if 0 < surplus then
    [{ type := "budget", title := "✅ Positive Cash Flow",
       message := "You have a surplus of ৳" ++ fmtMoney surplus ++
         "/month. Great job! Consider allocating to goals or emergency fund.",
       severity := "info" }]
  else []

/-- Insight 2 of `generate_insights`: DTI threshold check. -/
def dtiInsights (monthly_net_income total_debt_emi : ℚ) : List InsightArgs :=
  if 0 < monthly_net_income then
    let dti_ratio := total_debt_emi / monthly_net_income
    if (0.4 : ℚ) < dti_ratio then
      [{ type := "debt", title := "⚠️ High Debt-to-Income Ratio",
         message := "Your DTI is " ++ fmtFixed1 (dti_ratio * 100) ++
           "% (recommended: <40%). Avoid taking new loans until DTI improves.",
         severity := "warning" }]
    else []
  else []

/-- Insight 3 of `generate_insights`: progress lag over the top 3 goals. -/
def goalInsights (goals : List Goal) : List InsightArgs :=
  (goals.take 3).filterMap (fun goal =>
    if 0 < goal.target_amount then
      let progress := goal.saved_amount / goal.target_amount * 100
      if progress < 25 then
        some { type := "goal", title := "📊 Goal: " ++ goal.name,
               message := "Only " ++ fmtFixed1 progress ++
                 "% complete. Increase monthly contributions to stay on track.",
               severity := "info" }
      else none
    else none)

/-- Insight 4 of `generate_insights`: debt-prepayment opportunity. -/
def prepaymentInsights (surplus total_debt_emi : ℚ) (debts : List DebtAccount) :
    List InsightArgs :=
  if total_debt_emi * (0.5 : ℚ) < surplus ∧ debts ≠ [] then
    [{ type := "debt", title := "💡 Prepayment Opportunity",
       message := "You could pay extra ৳" ++ fmtMoney (surplus * (0.2 : ℚ)) ++
         "/month on debts to save on interest and finish early.",
       severity := "info" }]
  else []

/-- `generate_insights`: the four appended insight blocks in source order,
each constructed through the imported `schemas.AIInsight` model — the first
construction pydantic rejects raises out of the function.  The `ai_rules`
parameter is accepted and unused, exactly as in the source. -/
def generate_insights (user : User) (expenses : List Expense) (debts : List DebtAccount)
    (goals : List Goal) (ai_rules : Option AIRule) :
    Except PydanticError (List AIInsight) :=
  let total_expenses := totalExpenseAmount expenses
  let total_debt_emi := totalDebtEmi debts
  let surplus := user.monthly_net_income - total_expenses - total_debt_emi
  buildAll (cashFlowInsights surplus ++
    dtiInsights user.monthly_net_income total_debt_emi ++
    goalInsights goals ++
    prepaymentInsights surplus total_debt_emi debts)

/-! ## Dashboard aggregator (`get_dashboard` in src/app/routers/calc.py)

The handler aggregates the records and then constructs the imported
`schemas.DashboardSummary` from its keyword arguments; the aggregation is
modelled by `dashboardArgs` and the constructor call by
`buildDashboardSummary` over the keyword-argument list the handler passes. -/

/-- The keyword arguments `get_dashboard` passes to `DashboardSummary(...)`
(names and order as at the construction site in routers/calc.py). -/
structure DashboardArgs where
  total_income : ℚ
  total_expenses : ℚ
  surplus : ℚ
  dti : ℚ
  safe_to_spend : ℚ
  fun_budget : ℚ
  goal_progress_pct : ℚ
  debt_payoff_eta_months : Option ℤ
  deriving DecidableEq, Repr

/-- The aggregation half of `get_dashboard`: everything the handler computes
before the `DashboardSummary(...)` call.  `settings.DEFAULT_FUN_RATIO` is the
explicit `default_fun_ratio` parameter. -/
def dashboardArgs (user : User) (expenses : List Expense) (debts : List DebtAccount)
    (goals : List Goal) (default_fun_ratio : ℚ) : DashboardArgs :=
  let total_expenses := totalExpenseAmount expenses
  let total_debt_emi := totalDebtEmi debts
  let total_income := user.monthly_net_income
  let surplus := total_income - total_expenses - total_debt_emi
  let dti_ratio := dti total_debt_emi total_income
  let goal_allocation := if 0 < surplus then surplus * (0.2 : ℚ) else 0
  let safe_spend := max 0 (surplus - goal_allocation)
  let fun_budget_amt := fun_budget total_income default_fun_ratio
  let total_goal_target := totalGoalTarget goals
  let total_goal_saved := totalGoalSaved goals
  let goal_progress := if 0 < total_goal_target
    then total_goal_saved / total_goal_target * 100 else 0
  let total_principal_remaining := totalPrincipal debts
  let debt_eta := if 0 < total_debt_emi
    then some (pyTrunc (total_principal_remaining / total_debt_emi)) else none
  { total_income := pyRound total_income 2
    total_expenses := pyRound total_expenses 2
    surplus := pyRound surplus 2
    dti := pyRound dti_ratio 4
    safe_to_spend := pyRound safe_spend 2
    fun_budget := pyRound fun_budget_amt 2
    goal_progress_pct := pyRound goal_progress 2
    debt_payoff_eta_months := debt_eta }

/-- The keyword-argument list of the `DashboardSummary(...)` call in
routers/calc.py. -/
def dashboardKwargs (a : DashboardArgs) : List (String × PyValue) :=
  [("total_income", .num a.total_income), ("total_expenses", .num a.total_expenses),
   ("surplus", .num a.surplus), ("dti", .num a.dti),
   ("safe_to_spend", .num a.safe_to_spend), ("fun_budget", .num a.fun_budget),
   ("goal_progress_pct", .num a.goal_progress_pct),
   ("debt_payoff_eta_months", .optInt a.debt_payoff_eta_months)]

/-- `get_dashboard`: aggregate, then construct `schemas.DashboardSummary`
from the keyword arguments the handler passes. -/
def get_dashboard (user : User) (expenses : List Expense) (debts : List DebtAccount)
    (goals : List Goal) (default_fun_ratio : ℚ) :
    Except PydanticError DashboardSummary :=
  buildDashboardSummary
    (dashboardKwargs (dashboardArgs user expenses debts goals default_fun_ratio))

/-! ## AI response provider (`AIProvider` in src/app/services/ai.py)

The remote backends are external I/O; each call's outcome is passed in as an
explicit value (success content, raised exception, missing client library,
or a choice-less reply), and the provider functions map outcomes to the
user-visible strings of the source. -/

/-- The configuration fields read by `AIProvider.__init__` (already
normalised: `provider` is the lowered, stripped provider name). -/
structure ProviderConfig where
  provider : String
  base_url : String
  model : String
  api_key : String
  system_prompt : String
  deriving DecidableEq, Repr

/-- `AIProvider.is_configured`: Python truthiness of `api_key and model`
(both branches of the source conditional compute the same test). -/
def isConfigured (cfg : ProviderConfig) : Bool :=
  cfg.api_key ≠ "" && cfg.model ≠ ""

/-- `AIProvider.active_provider`: the configured provider name, or the mock. -/
def activeProvider (cfg : ProviderConfig) : String :=
  if isConfigured cfg then cfg.provider else "mock"

/-- Outcome of the external OpenAI-compatible call: the reply content, or the
exception message raised anywhere inside the `try` block. -/
inductive OpenAIOutcome where
  | content (s : String)
  | exc (e : String)
  deriving DecidableEq, Repr

/-- Outcome of the external Hugging Face call. -/
inductive HFOutcome where
  | importMissing
  | noChoices
  | content (s : String)
  | exc (e : String)
  deriving DecidableEq, Repr

/-- `AIProvider._call_openai`: reply content stripped on success, the fixed
"temporarily unavailable" string on any exception. -/
def callOpenai (outcome : OpenAIOutcome) : String :=
  match outcome with
  | .content s => s.trim
  | .exc e => "AI service temporarily unavailable. Error: " ++ e

/-- `AIProvider._call_huggingface`: content stripped on success with fallbacks
for empty replies, a fixed message when the client library is missing, the
"temporarily unavailable" string on any other exception. -/
def callHuggingface (outcome : HFOutcome) : String :=
  match outcome with
  | .importMissing =>
      "Hugging Face client is not installed. Run \x27pip install huggingface-hub\x27 " ++
      "and restart the service."
  | .noChoices => "AI service responded without content. Please try again shortly."
  | .content s =>
      let c := s.trim
      if c = "" then "AI service responded without content. Please try again shortly."
      else c
  | .exc e => "AI service temporarily unavailable. Error: " ++ e

/-- The `_mock_response` educational paragraph for budget questions. -/
def mockBudgetText : String :=
  "Based on your current financial situation, here\x27s some guidance:\n\n" ++
  "1. Track all expenses (fixed and variable)\n" ++
  "2. Aim to keep essential expenses below 50% of income\n" ++
  "3. Allocate 20% to savings and goals\n" ++
  "4. Keep discretionary spending around 15-20%\n\n" ++
  "Your current safe-to-spend amount is calculated by: " ++
  "Balance - Bills - Debt Minimums - Reserve - Goal Allocations\n\n" ++
  "This is educational guidance. Please consult a financial advisor for personalized advice."

/-- The `_mock_response` educational paragraph for loan questions. -/
def mockLoanText : String :=
  "When considering a loan:\n\n" ++
  "1. Keep your DTI (Debt-to-Income) ratio below 40%\n" ++
  "2. EMI formula: P × r × (1+r)^n / ((1+r)^n - 1)\n" ++
  "   Where P=principal, r=monthly rate, n=months\n" ++
  "3. Compare offers from multiple lenders\n" ++
  "4. Consider stress scenarios (+2% rate, -10% income)\n\n" ++
  "Use our loan calculator for estimates. Remember: estimates are illustrative; " ++
  "approval and terms are set by licensed lenders.\n\n" ++
  "This is educational information, not a loan offer."

/-- The `_mock_response` educational paragraph for goal questions. -/
def mockGoalText : String :=
  "Tips for reaching your financial goals:\n\n" ++
  "1. Set specific, measurable targets with deadlines\n" ++
  "2. Automate savings (pay yourself first)\n" ++
  "3. Prioritize goals (emergency fund → debt → long-term)\n" ++
  "4. Review progress monthly and adjust as needed\n\n" ++
  "Track your goals in the Goals section. We\x27ll help monitor your progress!\n\n" ++
  "This is educational guidance based on your inputs."

/-- The `_mock_response` fallback paragraph. -/
def mockDefaultText : String :=
  "I\x27m here to help with:\n" ++
  "• Budget planning and expense tracking\n" ++
  "• Loan affordability estimates (educational)\n" ++
  "• Inflation projections for essential expenses\n" ++
  "• Goal setting and savings strategies\n\n" ++
  "What would you like to know more about?\n\n" ++
  "Note: This is educational guidance, not professional financial advice."

/-- Mock keyword group for budget questions. -/
def mockBudgetWords : List String := ["budget", "spend", "expense"]

/-- Mock keyword group for loan questions. -/
def mockLoanWords : List String := ["loan", "debt", "emi"]

/-- Mock keyword group for goal questions. -/
def mockGoalWords : List String := ["goal", "save", "saving"]

/-- `AIProvider._mock_response`: the deterministic offline fallback.  The
`context` argument is accepted and unused, exactly as in the source. -/
def mockResponse (prompt context : String) : String :=
  let p := lowerString prompt
  if containsAnyWord p mockBudgetWords then mockBudgetText
  else if containsAnyWord p mockLoanWords then mockLoanText
  else if containsAnyWord p mockGoalWords then mockGoalText
  else mockDefaultText

/-- `AIProvider.generate_response`: the mock when unconfigured, otherwise the
configured backend with its externally supplied outcome. -/
def generate_response (cfg : ProviderConfig) (oai : OpenAIOutcome) (hf : HFOutcome)
    (prompt context : String) : String :=
  if ¬ (isConfigured cfg = true) then mockResponse prompt context
  else if cfg.provider = "huggingface" then callHuggingface hf
  else callOpenai oai

/-! ## AI router handler (`ask_ai` in src/app/routers/ai.py)

`ask_ai` returns the `schemas.AIInsight` response model; unlike the insight
generator, the router passes exactly the model's required keyword arguments
(`answer`, `intent`, `is_blocked`, `meta`), so its constructions validate and
are modelled directly as the record. -/

/-- One `log_action` call: the action name plus the payload fields the router
passes (`intent`, redacted `question`, and `provider` on the answered path).
The audit store itself is an external collaborator. -/
structure AuditEvent where
  action : String
  payload_intent : String
  payload_question : String
  payload_provider : Option String
  deriving DecidableEq, Repr

/-- Everything observable about one `ask_ai` request: the response, the audit
events recorded, and whether `generate_response` was invoked. -/
structure AskResult where
  response : AIInsight
  events : List AuditEvent
  provider_called : Bool
  deriving DecidableEq, Repr

/-- The fixed refusal message of the blocked branch of `ask_ai`. -/
def blockedAnswer : String :=
  "This request needs regulated capabilities (loan approval, e-KYC, or CIB access). " ++
  "Peak Finance operates in educational mode, so we cannot process it."

/-- Render a Bool the way the meta dict records `regulated_mode`. -/
def boolStr (b : Bool) : String :=
  let t : String := "True"
  let f : String := "False"
  if b then t else f

/-- The audit action name recorded on the blocked path, "ai_request_blocked". -/
def blockedAction : String := "ai_request_blocked"

/-- The audit action name recorded on the answered path, "ai_request_answered". -/
def answeredAction : String := "ai_request_answered"

/-- `ask_ai` from src/app/routers/ai.py.  External collaborators are explicit
parameters: `regulated` is `settings.IS_REGULATED_PARTNER`, `base_meta` is
`get_ai_meta()`, `redact` is `redact_pii_from_message`, `cfg`/`oai`/`hf`
describe the provider and its backend-call outcome, and the record lists are
the user's loaded rows.  Dict `update` is modelled as association-list append
(later keys shadow earlier ones). -/
def ask_ai (regulated : Bool) (cfg : ProviderConfig) (oai : OpenAIOutcome) (hf : HFOutcome)
    (redact : String → String) (base_meta : List (String × String))
    (default_fun_ratio : ℚ) (user : User) (expenses : List Expense)
    (debts : List DebtAccount) (goals : List Goal) (ai_rules : Option AIRule)
    (question : String) : AskResult :=
  let intent := classify_intent question
  let allowed := is_intent_allowed intent regulated
  let meta := base_meta ++ [("intent", intent.value), ("regulated_mode", boolStr regulated)]
  if allowed = false then
    { response :=
        { answer := blockedAnswer, intent := intent.value, is_blocked := true, meta := meta }
      events :=
        [{ action := blockedAction, payload_intent := intent.value,
           payload_question := redact question, payload_provider := none }]
      provider_called := false }
  else
    let context := build_user_context user expenses debts goals ai_rules default_fun_ratio
    let answer := generate_response cfg oai hf question context
    { response :=
        { answer := answer, intent := intent.value, is_blocked := false,
          meta := meta ++ [("provider", activeProvider cfg), ("context_summary", context)] }
      events :=
        [{ action := answeredAction, payload_intent := intent.value,
           payload_question := redact question,
           payload_provider := some (activeProvider cfg) }]
      provider_called := true }

/-! ## Theorems -/

/-- C1: any message whose lowered text contains a keyword of one of the three
blocked groups — in particular one that also contains an allowed keyword —
classifies as a blocked category, because blocked groups are tested first;
and a message matching no keyword group classifies as `UNKNOWN`. -/
theorem classify_intent_fail_closed (msg : String) :
    (containsAnyWord (lowerString msg) (loanApprovalWords ++ ekycWords ++ cibWords) = true →
      classify_intent msg ∈ BLOCKED_INTENTS)
    ∧ (noKeywordGroupMatches msg = true → classify_intent msg = IntentCategory.UNKNOWN) := by
  constructor
  · intro hb
    rw [containsAnyWord, List.any_append, List.any_append] at hb
    by_cases h1 : containsAnyWord (lowerString msg) loanApprovalWords = true
    · simp [classify_intent, h1]
      decide
    · by_cases h2 : containsAnyWord (lowerString msg) ekycWords = true
      · simp [classify_intent, h1, h2]
        decide
      · have h3 : containsAnyWord (lowerString msg) cibWords = true := by
          simp only [containsAnyWord] at h1 h2 ⊢
          simpa [h1, h2] using hb
        simp [classify_intent, h1, h2, h3]
        decide
  · intro h
    simp only [noKeywordGroupMatches, Bool.and_eq_true, Bool.not_eq_true'] at h
    obtain ⟨⟨⟨⟨⟨⟨⟨h1, h2⟩, h3⟩, h4⟩, h5⟩, h6⟩, h7⟩, h8⟩ := h
    simp [classify_intent, h1, h2, h3, h4, h5, h6, h7, h8]

/-- A message containing both the blocked keyword "credit score" and the
allowed keyword "budget". -/
def msgCreditBudget : String := "Can you check my credit score and help with my budget?"

/-- A message matching no keyword group. -/
def msgNoKeywords : String := "xyzzy"

/-- Witness for C1: on a message with both a blocked and an allowed keyword
the classifier returns a blocked category, and a keyword-free message is
classified as `UNKNOWN`. -/
theorem classify_intent_fail_closed_witness :
    (containsAnyWord (lowerString msgCreditBudget)
        (loanApprovalWords ++ ekycWords ++ cibWords) = true ∧
      classify_intent msgCreditBudget ∈ BLOCKED_INTENTS)
    ∧ (noKeywordGroupMatches msgNoKeywords = true ∧
      classify_intent msgNoKeywords = IntentCategory.UNKNOWN) :=
  ⟨⟨by decide, (classify_intent_fail_closed msgCreditBudget).1 (by decide)⟩,
   ⟨by decide, (classify_intent_fail_closed msgNoKeywords).2 (by decide)⟩⟩

/-- C2: blocked intents are allowed exactly in regulated mode, and every
non-blocked intent is allowed under both values of the regulated flag. -/
theorem is_intent_allowed_gate (intent : IntentCategory) :
    (intent ∈ BLOCKED_INTENTS →
      is_intent_allowed intent false = false ∧ is_intent_allowed intent true = true)
    ∧ (intent ∉ BLOCKED_INTENTS →
      is_intent_allowed intent false = true ∧ is_intent_allowed intent true = true) := by
  cases intent <;> exact ⟨by decide, by decide⟩

/-- Witness for C2: the gate evaluated at a blocked and at an allowed intent. -/
theorem is_intent_allowed_gate_witness :
    (IntentCategory.CIB_ACCESS_REQUEST ∈ BLOCKED_INTENTS ∧
      is_intent_allowed .CIB_ACCESS_REQUEST false = false ∧
      is_intent_allowed .CIB_ACCESS_REQUEST true = true)
    ∧ (IntentCategory.BUDGET_HELP ∉ BLOCKED_INTENTS ∧
      is_intent_allowed .BUDGET_HELP false = true ∧
      is_intent_allowed .BUDGET_HELP true = true) :=
  ⟨⟨by decide, (is_intent_allowed_gate .CIB_ACCESS_REQUEST).1 (by decide)⟩,
   ⟨by decide, (is_intent_allowed_gate .BUDGET_HELP).2 (by decide)⟩⟩

/-- C3: when the classified intent is not allowed, `ask_ai` returns a blocked
response carrying the fixed refusal message and never invokes the provider;
when it is allowed, the provider runs on the context builder's output. -/
theorem ask_ai_gates_provider (regulated : Bool) (cfg : ProviderConfig)
    (oai : OpenAIOutcome) (hf : HFOutcome) (redact : String → String)
    (base_meta : List (String × String)) (default_fun_ratio : ℚ) (user : User)
    (expenses : List Expense) (debts : List DebtAccount) (goals : List Goal)
    (ai_rules : Option AIRule) (question : String) :
    (is_intent_allowed (classify_intent question) regulated = false →
      (ask_ai regulated cfg oai hf redact base_meta default_fun_ratio user expenses debts
          goals ai_rules question).response.is_blocked = true ∧
      (ask_ai regulated cfg oai hf redact base_meta default_fun_ratio user expenses debts
          goals ai_rules question).response.answer = blockedAnswer ∧
      (ask_ai regulated cfg oai hf redact base_meta default_fun_ratio user expenses debts
          goals ai_rules question).provider_called = false)
    ∧ (is_intent_allowed (classify_intent question) regulated = true →
      (ask_ai regulated cfg oai hf redact base_meta default_fun_ratio user expenses debts
          goals ai_rules question).provider_called = true ∧
      (ask_ai regulated cfg oai hf redact base_meta default_fun_ratio user expenses debts
          goals ai_rules question).response.answer =
        generate_response cfg oai hf question
          (build_user_context user expenses debts goals ai_rules default_fun_ratio)) := by
  constructor <;> intro h <;> simp [ask_ai, h]

/-- A user record for concrete evaluations. -/
def wUser : User := { monthly_net_income := 50000, risk_tolerance := none }

/-- An unconfigured provider (no API key, no model): the mock is active. -/
def wCfgMock : ProviderConfig :=
  { provider := "openai", base_url := "", model := "", api_key := "", system_prompt := "" }

/-- A configured provider. -/
def wCfg : ProviderConfig :=
  { provider := "openai", base_url := "", model := "gpt-test", api_key := "key",
    system_prompt := "" }

/-- A backend exception message for concrete evaluations. -/
def wErr : String := "connection timeout"

/-- Witness for C3: a credit-score question in educational mode is blocked
with the fixed message and no provider call; a keyword-free question is
allowed and reaches the provider on the built context. -/
theorem ask_ai_gates_provider_witness :
    (is_intent_allowed (classify_intent msgCreditBudget) false = false ∧
      (ask_ai false wCfgMock (.exc wErr) .importMissing id [] (15/100) wUser [] [] [] none
          msgCreditBudget).response.is_blocked = true ∧
      (ask_ai false wCfgMock (.exc wErr) .importMissing id [] (15/100) wUser [] [] [] none
          msgCreditBudget).response.answer = blockedAnswer ∧
      (ask_ai false wCfgMock (.exc wErr) .importMissing id [] (15/100) wUser [] [] [] none
          msgCreditBudget).provider_called = false)
    ∧ (is_intent_allowed (classify_intent msgNoKeywords) false = true ∧
      (ask_ai false wCfgMock (.exc wErr) .importMissing id [] (15/100) wUser [] [] [] none
          msgNoKeywords).provider_called = true ∧
      (ask_ai false wCfgMock (.exc wErr) .importMissing id [] (15/100) wUser [] [] [] none
          msgNoKeywords).response.answer =
        generate_response wCfgMock (.exc wErr) .importMissing msgNoKeywords
          (build_user_context wUser [] [] [] none (15/100))) :=
  ⟨⟨by decide,
    (ask_ai_gates_provider false wCfgMock (.exc wErr) .importMissing id [] (15/100) wUser
        [] [] [] none msgCreditBudget).1 (by decide)⟩,
   ⟨by decide,
    (ask_ai_gates_provider false wCfgMock (.exc wErr) .importMissing id [] (15/100) wUser
        [] [] [] none msgNoKeywords).2 (by decide)⟩⟩

/-- C7: every `ask_ai` request records exactly one audit event, carrying the
classified intent and the redacted question; its action is
"ai_request_answered" on the answered path and "ai_request_blocked" on the
blocked path. -/
theorem ask_ai_audits_every_request (regulated : Bool) (cfg : ProviderConfig)
    (oai : OpenAIOutcome) (hf : HFOutcome) (redact : String → String)
    (base_meta : List (String × String)) (default_fun_ratio : ℚ) (user : User)
    (expenses : List Expense) (debts : List DebtAccount) (goals : List Goal)
    (ai_rules : Option AIRule) (question : String) :
    (ask_ai regulated cfg oai hf redact base_meta default_fun_ratio user expenses debts
        goals ai_rules question).events =
      [{ action := if is_intent_allowed (classify_intent question) regulated
             then answeredAction else blockedAction
         payload_intent := (classify_intent question).value
         payload_question := redact question
         payload_provider := if is_intent_allowed (classify_intent question) regulated
             then some (activeProvider cfg) else none }] := by
  by_cases h : is_intent_allowed (classify_intent question) regulated = true
  · simp [ask_ai, h]
  · simp only [Bool.not_eq_true] at h
    simp [ask_ai, h]

set_option maxRecDepth 8192 in
/-- C4: with missing credentials `generate_response` degrades to the total
deterministic mock (hence never raises) and returns non-empty text; when
configured, a backend failure is converted to the fixed "temporarily
unavailable" string on either backend rather than propagated. -/
theorem generate_response_fallback (cfg : ProviderConfig) (oai : OpenAIOutcome)
    (hf : HFOutcome) (prompt context e : String) :
    (isConfigured cfg = false → prompt ≠ "" →
      generate_response cfg oai hf prompt context = mockResponse prompt context ∧
      0 < (generate_response cfg oai hf prompt context).length)
    ∧ (isConfigured cfg = true →
      generate_response cfg (.exc e) (.exc e) prompt context =
        "AI service temporarily unavailable. Error: " ++ e) := by
  constructor
  · intro h _hne
    have hmock : generate_response cfg oai hf prompt context = mockResponse prompt context := by
      simp [generate_response, h]
    refine ⟨hmock, ?_⟩
    rw [hmock, mockResponse]
    split
    · decide
    · split
      · decide
      · split
        · decide
        · decide
  · intro h
    simp only [generate_response, h]
    by_cases hp : cfg.provider = "huggingface"
    · simp [hp, callHuggingface]
    · simp [hp, callOpenai]

/-- Witness for C4: the unconfigured provider answers a concrete question
with the non-empty mock text, and the configured provider converts a concrete
backend exception into the "temporarily unavailable" string. -/
theorem generate_response_fallback_witness :
    (isConfigured wCfgMock = false ∧ msgNoKeywords ≠ "" ∧
      generate_response wCfgMock (.exc wErr) .importMissing msgNoKeywords emptyS =
        mockResponse msgNoKeywords emptyS ∧
      0 < (generate_response wCfgMock (.exc wErr) .importMissing msgNoKeywords emptyS).length)
    ∧ (isConfigured wCfg = true ∧
      generate_response wCfg (.exc wErr) (.exc wErr) msgNoKeywords emptyS =
        "AI service temporarily unavailable. Error: " ++ wErr) :=
  ⟨⟨by decide, by decide,
    (generate_response_fallback wCfgMock (.exc wErr) .importMissing msgNoKeywords emptyS
        wErr).1 (by decide) (by decide)⟩,
   ⟨by decide,
    (generate_response_fallback wCfg (.exc wErr) (.exc wErr) msgNoKeywords emptyS wErr).2
      (by decide)⟩⟩

/-- A 30000-per-month expense record for concrete evaluations. -/
def wExpense : Expense := { name := "rent", amount := 30000 }

/-- A debt record with a 5000 EMI for concrete evaluations. -/
def wDebt : DebtAccount :=
  { name := "car loan", principal := 200000, annual_rate_pct := 10, term_months := 48,
    current_emi := 5000 }

/-- Any single `AIInsight(type/title/message/severity)` construction in
`generate_insights` fails validation: none of the four required fields of
`schemas.AIInsight` is among the passed keyword arguments. -/
lemma buildAIInsight_always_fails (a : InsightArgs) :
    buildAIInsight a = .error .validationError := rfl

/-- `generate_insights` raises at its first construction site whenever at
least one insight is appended. -/
lemma buildAll_cons (a : InsightArgs) (rest : List InsightArgs) :
    buildAll (a :: rest) = .error .validationError := by
  rw [buildAll, buildAIInsight_always_fails]

/-- The `DashboardSummary(...)` construction in `get_dashboard` fails
validation for every computed argument record: the required fields
`total_fixed_expenses`, `total_variable_expenses`, `total_debt_emi`,
`total_savings_needed` and `remaining_balance` of `schemas.DashboardSummary`
are not among the keyword arguments the handler passes. -/
lemma buildDashboardSummary_args_fails (a : DashboardArgs) :
    buildDashboardSummary (dashboardKwargs a) = .error .validationError := rfl

/-- C5 (code bug): the handler's aggregation does satisfy the claimed
arithmetic — at income 50000, expenses 30000, debt EMI 5000 the computed
keyword arguments carry surplus 15000, safe-to-spend 12000 and DTI 0.1 — but
`get_dashboard` then raises a pydantic `ValidationError` constructing
`schemas.DashboardSummary` (missing required fields, no `surplus` field), so
the program never returns the claimed summary. -/
theorem get_dashboard_validation_bug :
    ((dashboardArgs wUser [wExpense] [wDebt] [] (15/100)).surplus = 15000
      ∧ (dashboardArgs wUser [wExpense] [wDebt] [] (15/100)).safe_to_spend = 12000
      ∧ (dashboardArgs wUser [wExpense] [wDebt] [] (15/100)).dti = (0.1 : ℚ))
    ∧ get_dashboard wUser [wExpense] [wDebt] [] (15/100) = .error .validationError := by
  constructor
  · norm_num [dashboardArgs, pyRound, halfEvenRound, dti, fun_budget, totalExpenseAmount,
      totalDebtEmi, totalPrincipal, totalGoalTarget, totalGoalSaved, wUser, wExpense, wDebt,
      Int.floor_intCast]
  · rw [get_dashboard]
    exact buildDashboardSummary_args_fails _

/-- A debt record whose principal/EMI quotient (1000/300) is not integral. -/
def wDebtEta : DebtAccount :=
  { name := "loan", principal := 1000, annual_rate_pct := 10, term_months := 12,
    current_emi := 300 }

/-- C9 (code bug): with one debt of principal 1000 and EMI 300 the handler
computes the `int()`-truncated ETA 3, which already differs from the claim's
exact quotient 10/3, and then `get_dashboard` raises a pydantic
`ValidationError` constructing `schemas.DashboardSummary` (which has no
`debt_payoff_eta_months` field at all), so no ETA — truncated or exact —
is ever returned. -/
theorem dashboard_eta_validation_bug :
    (dashboardArgs wUser [] [wDebtEta] [] (15/100)).debt_payoff_eta_months = some 3
    ∧ totalPrincipal [wDebtEta] / totalDebtEmi [wDebtEta] ≠ ((3 : ℤ) : ℚ)
    ∧ get_dashboard wUser [] [wDebtEta] [] (15/100) = .error .validationError := by
  refine ⟨?_, ?_, ?_⟩
  · norm_num [dashboardArgs, totalDebtEmi, totalPrincipal, totalExpenseAmount, wDebtEta,
      wUser, pyTrunc]
  · norm_num [totalPrincipal, totalDebtEmi, wDebtEta]
  · rw [get_dashboard]
    exact buildDashboardSummary_args_fails _

/-- C8: for principal P > 0, annual rate r ≥ 0 and term n ≥ 1, `emi` succeeds
and `principal_from_emi` inverts it exactly over ℚ (hence within any floating
tolerance), with the zero-rate special cases emi(P,0,n) = P/n and
principal_from_emi(e,0,n) = e·n. -/
theorem principal_from_emi_round_trip (P r e : ℚ) (n : ℕ)
    (hP : 0 < P) (hr : 0 ≤ r) (hn : 1 ≤ n) :
    emi P r n = .ok (emiVal P r n)
    ∧ principal_from_emi (emiVal P r n) r n = P
    ∧ emiVal P 0 n = P / n
    ∧ principal_from_emi e 0 n = e * n := by
  have hn0 : (n : ℚ) ≠ 0 := Nat.cast_ne_zero.mpr (by omega)
  refine ⟨?_, ?_, ?_, ?_⟩
  · rw [emi, if_neg]
    push_neg
    exact ⟨by omega, hP.le⟩
  · by_cases hr0 : monthlyRate r = 0
    · rw [principal_from_emi, emiVal]
      simp only [hr0, if_pos rfl]
      field_simp
    · have hrpos : 0 < monthlyRate r := by
        rcases lt_or_eq_of_le (by unfold monthlyRate; positivity :
          (0 : ℚ) ≤ monthlyRate r) with h | h
        · exact h
        · exact absurd h.symm hr0
      have hA : 1 < (1 + monthlyRate r) ^ n := one_lt_pow₀ (by linarith) (by omega)
      have hAne : (1 + monthlyRate r) ^ n ≠ 0 := by positivity
      have hA1 : (1 + monthlyRate r) ^ n - 1 ≠ 0 := sub_ne_zero.mpr (ne_of_gt hA)
      rw [principal_from_emi, emiVal]
      simp only [if_neg hr0]
      field_simp
      ring
  · rw [emiVal]
    norm_num [monthlyRate]
  · rw [principal_from_emi]
    norm_num [monthlyRate]

/-- Witness for C8: the round trip evaluated at P = 2400, r = 12%, n = 2,
and the zero-rate cases at e = 5. -/
theorem principal_from_emi_round_trip_witness :
    ((0 : ℚ) < 2400 ∧ (0 : ℚ) ≤ 12 ∧ (1 : ℕ) ≤ 2) ∧
      (emi 2400 12 2 = .ok (emiVal 2400 12 2) ∧
        principal_from_emi (emiVal 2400 12 2) 12 2 = 2400 ∧
        emiVal 2400 0 2 = 2400 / 2 ∧
        principal_from_emi 5 0 2 = 5 * 2) :=
  ⟨⟨by norm_num, by norm_num, by norm_num⟩,
    principal_from_emi_round_trip 2400 12 5 2 (by norm_num) (by norm_num) (by norm_num)⟩

/-- A user running a deficit against `wExpense`. -/
def wUserPoor : User := { monthly_net_income := 1000, risk_tolerance := none }

/-- C6 (code bug): on a deficit input the generator's first construction site
does pass the claimed deficit keyword arguments — title "⚠️ Budget Deficit",
severity "critical" — but constructing `schemas.AIInsight` from them raises a
pydantic `ValidationError` (its required fields are answer/intent/is_blocked/
meta), so `generate_insights` raises instead of emitting any insight. -/
theorem generate_insights_validation_bug :
    (wUserPoor.monthly_net_income - totalExpenseAmount [wExpense] - totalDebtEmi [] < 0)
    ∧ (∃ i ∈ cashFlowInsights (wUserPoor.monthly_net_income - totalExpenseAmount [wExpense] -
        totalDebtEmi []), i.title = "⚠️ Budget Deficit" ∧ i.severity = "critical")
    ∧ generate_insights wUserPoor [wExpense] [] [] none = .error .validationError := by
  have hs : wUserPoor.monthly_net_income - totalExpenseAmount [wExpense] - totalDebtEmi [] <
      0 := by
    norm_num [wUserPoor, wExpense, totalExpenseAmount, totalDebtEmi]
  refine ⟨hs, ?_, ?_⟩
  · simp [cashFlowInsights, hs]
  · rw [generate_insights]
    rw [show cashFlowInsights (wUserPoor.monthly_net_income - totalExpenseAmount [wExpense] -
        totalDebtEmi []) = [_] from if_pos hs]
    rw [List.singleton_append]
    exact buildAll_cons _ _

/-- C10: the grounding context depends on the expense list only through the
sum of the amounts — two expense lists with equal totals (all other inputs
equal) produce the identical context string, so no individual expense name
or amount can influence it. -/
theorem build_user_context_expense_sum_invariant (user : User) (debts : List DebtAccount)
    (goals : List Goal) (ai_rules : Option AIRule) (default_fun_ratio : ℚ)
    (es1 es2 : List Expense) (h : totalExpenseAmount es1 = totalExpenseAmount es2) :
    build_user_context user es1 debts goals ai_rules default_fun_ratio =
      build_user_context user es2 debts goals ai_rules default_fun_ratio := by
  unfold build_user_context
  rw [h]

/-- Two itemised expenses totalling 1000. -/
def wExpensePair : List Expense :=
  [{ name := "rent", amount := 700 }, { name := "food", amount := 300 }]

/-- One differently named expense also totalling 1000. -/
def wExpenseSingle : List Expense := [{ name := "everything combined", amount := 1000 }]

/-- Witness for C10: two concrete expense lists with equal totals but
different names and itemisation produce the same context string. -/
theorem build_user_context_expense_sum_invariant_witness :
    totalExpenseAmount wExpensePair = totalExpenseAmount wExpenseSingle ∧
      build_user_context wUser wExpensePair [] [] none (15/100) =
        build_user_context wUser wExpenseSingle [] [] none (15/100) :=
  ⟨by norm_num [totalExpenseAmount, wExpensePair, wExpenseSingle],
   build_user_context_expense_sum_invariant wUser [] [] none (15/100) wExpensePair
     wExpenseSingle (by norm_num [totalExpenseAmount, wExpensePair, wExpenseSingle])⟩

end PeakFinance
